import Mathlib

/-!
Verification of the token-based account-action authorization subsystem of the
encyclo-flower backend: token issuance (`setup_email_verification`,
`setup_reset_password_email` in `src/api/endpoints/helpers_tools/email.py`),
email dispatch (`send_email`), the verify-email endpoint (`verify_email` and
`create_user` in `src/api/endpoints/users.py`), and the token store and
validator contract described by the specification.

The parts present in the repository sources are embedded directly from the
Python code; the token record model (`models/user.py`), the configuration
object (`core/config.py`) and the token validator dependency
(`get_user_from_email_registration_token`, reset-password consumption) are not
among the provided sources and are modelled from the specification, as marked
on each definition.
-/

namespace EncycloFlower

/-- Token purpose: which account action a token authorizes. -/
inductive Purpose where
  | EmailVerification
  | PasswordReset
deriving DecidableEq

/-- Modelled from the spec: the TTL table (spec section 6), a fixed
configuration `\x7bEmailVerification: 48h, PasswordReset: 24h\x7d`, in seconds.
The token model holding it (`models/user.py`) is not among the sources; the
email bodies in `email.py` state the same 48h/24h durations. -/
def TTL : Purpose → Nat
  | .EmailVerification => 48 * 3600
  | .PasswordReset => 24 * 3600

/-- Modelled from the spec: the Token record (spec section 3); the concrete
pydantic models `UserVerificationTokenData` / `UserVerificationTokenDataExt`
(`models/user.py`) are not among the sources. Timestamps are seconds. -/
structure Token where
  value : String
  user_id : String
  purpose : Purpose
  created_at : Nat
  expires_at : Nat
deriving DecidableEq

/-- Modelled from the spec: token creation at issuance, `expires_at =
created_at + TTL(purpose)` (spec section 3). -/
def mkToken (value user_id : String) (purpose : Purpose) (created_at : Nat) : Token :=
  { value := value, user_id := user_id, purpose := purpose,
    created_at := created_at, expires_at := created_at + TTL purpose }

/-- The token store.  The source keeps two separate MongoDB collections:
`db.email_verification_tokens` (email.py line 48) and
`db.reset_password_tokens` (email.py line 86). -/
structure Store where
  email_verification_tokens : List Token
  reset_password_tokens : List Token
deriving DecidableEq

/-- All live token records, both collections. -/
def Store.tokens (db : Store) : List Token :=
  db.email_verification_tokens ++ db.reset_password_tokens

/-- Remove the first record with the given value from a collection
(the deletion half of the store's find-and-delete). -/
def eraseFirst : List Token → String → List Token
  | [], _ => []
  | t :: ts, v => if t.value = v then ts else t :: eraseFirst ts v

/-- Remove the first record with the given value from each collection. -/
def Store.erase (db : Store) (v : String) : Store :=
  { email_verification_tokens := eraseFirst db.email_verification_tokens v,
    reset_password_tokens := eraseFirst db.reset_password_tokens v }

/-- Validation failure taxonomy (spec section 7). -/
inductive ValidateError where
  | NotFound
  | Expired
  | PurposeMismatch
deriving DecidableEq

/-- Modelled from the spec: the store's atomic consume primitive
`consumeIfValid(value, purpose, now)` (spec section 4.2): look up the record
by value; absent gives `NotFound`; a record under a different purpose gives
`PurposeMismatch`; a record with `now > expires_at` gives `Expired`; otherwise
delete the record and return it.  On every failure the store is unchanged.
The validator code (`get_user_from_email_registration_token` and the
reset-password consumption endpoint) is not among the sources. -/
def consumeIfValid (db : Store) (v : String) (purpose : Purpose) (now : Nat) :
    Except ValidateError (Token × Store) :=
  match ( Store.tokens db).find? (fun t => t.value = v) with
  | none => .error .NotFound
  | some t =>
    if t.purpose = purpose then
      if now ≤ t.expires_at then
        .ok (t, Store.erase db v)
      else
        .error .Expired
    else
      .error .PurposeMismatch

/-- Modelled from the spec: `validate(token_value, purpose, now) -> user_id`
(spec section 4.3), delegating to the store's atomic consume.  The store state
is returned alongside the result; on failure it is unchanged. -/
def validate (db : Store) (v : String) (purpose : Purpose) (now : Nat) :
    Store × Except ValidateError String :=
  match consumeIfValid db v purpose now with
  | .ok (t, db1) => (db1, .ok t.user_id)
  | .error e => (db, .error e)

/-- Modelled from the spec: the per-process configuration object
(`core/config.py` is not among the sources; spec section 9 names the app name,
API prefix and base URL as global configuration).  Field names follow the
uses in `email.py`. -/
structure Settings where
  APP_NAME : String
  API_PREFIX : String
  EMAIL_ADDRESS : String
deriving DecidableEq

/-- An email message, as built by `EmailMessage(...)` in `email.py`
(the field `receipients` keeps the source's spelling). -/
structure EmailMessage where
  sender : String
  receipients : String
  subject : String
  body : String
deriving DecidableEq

/-- The SMTP credentials environment, read by `send_email` via
`os.environ.get("SMTP_USER")` / `os.environ.get("SMTP_PASS")`. -/
structure Env where
  SMTP_USER : Option String
  SMTP_PASS : Option String
deriving DecidableEq

/-- Python truthiness of `os.environ.get(...)`: `None` and the empty string
are falsy. -/
def truthy : Option String → Bool
  | none => false
  | some s => s ≠ ""

/-- Outcome of `send_email` (email.py lines 13-19): the message is sent, or a
warning is logged and no message is sent, or an exception escapes
`msg.smtp_send()` uncaught. -/
inductive SendOutcome where
  | sent (msg : EmailMessage)
  | warnedNotSent
  | raised (e : String)
deriving DecidableEq

/-- `send_email` from email.py lines 13-19: if both `SMTP_USER` and
`SMTP_PASS` are truthy, call `msg.smtp_send()` (whose outcome is supplied by
the `smtpResult` oracle; the function wraps it in no try/except, so an error
propagates); otherwise log a warning and send nothing. -/
def send_email (env : Env) (smtpResult : Except String Unit) (msg : EmailMessage) :
    SendOutcome :=
  if truthy env.SMTP_USER && truthy env.SMTP_PASS then
    match smtpResult with
    | .ok _ => .sent msg
    | .error e => .raised e
  else
    .warnedNotSent

/-- Issuance failure taxonomy (spec section 7): persistence failure. -/
inductive IssueError where
  | StorageUnavailable
deriving DecidableEq

/-- `db.<collection>.insert_one(record)`: appends the record on success; a
persistence failure (the `ok` oracle false) raises and leaves the collection
unchanged. -/
def insert_one (ok : Bool) (coll : List Token) (t : Token) :
    Except IssueError (List Token) :=
  if ok then .ok (coll ++ [t]) else .error .StorageUnavailable

/-- The verification link interpolated into the email body at email.py
line 39: `\x7bbase_url\x7d\x7bsettings.API_PREFIX[1:]\x7d/users/verify-email/\x7btoken\x7d`
(note the `[1:]`: the first character of the prefix is dropped). -/
def verificationLink (base_url api_pre token : String) : String :=
  base_url ++ String.drop api_pre 1 ++ "/users/verify-email/" ++ token

/-- The reset link interpolated into the email body at email.py line 77:
`\x7bbase_url\x7d\x7bsettings.API_PREFIX[1:]\x7d/login/reset-password/\x7btoken\x7d`. -/
def resetPasswordLink (base_url api_pre token : String) : String :=
  base_url ++ String.drop api_pre 1 ++ "/login/reset-password/" ++ token

/-- The link exactly as the spec's words state it (spec section 6):
`\x7bbase_url\x7d\x7bapi_prefix\x7d/users/verify-email/\x7btoken\x7d`. -/
def specVerificationLink (base_url api_pre token : String) : String :=
  base_url ++ api_pre ++ "/users/verify-email/" ++ token

/-- The reset link exactly as the spec's words state it (spec section 6):
`\x7bbase_url\x7d\x7bapi_prefix\x7d/login/reset-password/\x7btoken\x7d`. -/
def specResetPasswordLink (base_url api_pre token : String) : String :=
  base_url ++ api_pre ++ "/login/reset-password/" ++ token

/-- The email body of the verification message (email.py lines 36-45). -/
def verificationBody (s : Settings) (base_url token : String) : String :=
  "\n    Hi,\n    Please click the link below to verify your email address:\n    "
    ++ verificationLink base_url ( Settings.API_PREFIX s) token
    ++ "\n\n    The link will expire in 48 hours.\n\n    Thanks,\n    The "
    ++ s.APP_NAME ++ " Team\n    "

/-- The email body of the reset-password message (email.py lines 74-83). -/
def resetPasswordBody (s : Settings) (base_url token : String) : String :=
  "\n    Hi,\n    Please click the link below to reset your password:\n    "
    ++ resetPasswordLink base_url ( Settings.API_PREFIX s) token
    ++ "\n\n    The link will expire in 24 hours.\n\n    Thanks,\n    The "
    ++ s.APP_NAME ++ " Team\n    "

/-- `setup_email_verification` (email.py lines 22-57): build the token record
(its fresh random value and the clock supplied as oracles, the record itself
modelled from the spec), build the body, insert the record into
`db.email_verification_tokens` (a persistence failure propagates, skipping the
send), then build the message and call `send_email`.  Returns the store
(unchanged on failure) and the outcome. -/
def setup_email_verification (s : Settings) (env : Env)
    (user_id email base_url : String) (tokenValue : String) (now : Nat)
    (insertOk : Bool) (smtpResult : Except String Unit) (db : Store) :
    Store × Except IssueError SendOutcome :=
  let user_verification := mkToken tokenValue user_id .EmailVerification now
  let body := verificationBody s base_url tokenValue
  match insert_one insertOk db.email_verification_tokens user_verification with
  | .error e => (db, .error e)
  | .ok coll =>
    let db1 : Store := { db with email_verification_tokens := coll }
    let msg : EmailMessage :=
      { sender := s.EMAIL_ADDRESS, receipients := email,
        subject := "Email verification", body := body }
    (db1, .ok (send_email env smtpResult msg))

/-- `setup_reset_password_email` (email.py lines 60-95): same shape as
`setup_email_verification`, inserting into `db.reset_password_tokens` and
sending the reset-password message. -/
def setup_reset_password_email (s : Settings) (env : Env)
    (user_id email base_url : String) (tokenValue : String) (now : Nat)
    (insertOk : Bool) (smtpResult : Except String Unit) (db : Store) :
    Store × Except IssueError SendOutcome :=
  let user_verification := mkToken tokenValue user_id .PasswordReset now
  let body := resetPasswordBody s base_url tokenValue
  match insert_one insertOk db.reset_password_tokens user_verification with
  | .error e => (db, .error e)
  | .ok coll =>
    let db1 : Store := { db with reset_password_tokens := coll }
    let msg : EmailMessage :=
      { sender := s.EMAIL_ADDRESS, receipients := email,
        subject := "Reset password", body := body }
    (db1, .ok (send_email env smtpResult msg))

/-- Number of live records carrying a given token value. -/
def countValue (db : Store) (v : String) : Nat :=
  ( Store.tokens db).countP (fun t => decide (t.value = v))

/-- Spec invariant (section 3): token values are globally unique among live
tokens; at most one live record carries the value. -/
def UniqueValue (db : Store) (v : String) : Prop :=
  countValue db v ≤ 1

/-- A user document (partial view of `UserInDB` in `models/user.py`; the
fields used across `users.py`). -/
structure UserDoc where
  user_id : String
  username : String
  email : String
  phone : String
  password : String
  is_superuser : Bool
  email_verified : Bool
  is_active : Bool
deriving DecidableEq

/-- The `$set` document of users.py lines 207-210: set `email_verified` and
`is_active` to true, touching nothing else. -/
def setVerifiedActive (u : UserDoc) : UserDoc :=
  { u with email_verified := true, is_active := true }

/-- `db.users.update_one(\x7b"user_id": user_id\x7d, \x7b"$set": ...\x7d)`
(users.py lines 207-210): update the first document whose `user_id` matches;
all other documents are untouched. -/
def update_one_verify : List UserDoc → String → List UserDoc
  | [], _ => []
  | u :: us, uid =>
    if u.user_id = uid then setVerifiedActive u :: us
    else u :: update_one_verify us uid

/-- Full database state: the token store plus the `users` collection. -/
structure DB where
  store : Store
  users : List UserDoc
deriving DecidableEq

/-- The `GET /users/verify-email/\x7btoken\x7d` endpoint (users.py lines
197-211): the dependency `get_user_from_email_registration_token` (not among
the sources, modelled from the spec as `validate` with purpose
`EmailVerification`) consumes the token; on success `db.users.update_one`
sets `email_verified` and `is_active` to true on the referenced account. -/
def verify_email (db : DB) (token : String) (now : Nat) :
    DB × Except ValidateError Unit :=
  match validate db.store token .EmailVerification now with
  | (st1, .ok uid) =>
    ({ store := st1, users := update_one_verify db.users uid }, .ok ())
  | (st1, .error e) => ({ db with store := st1 }, .error e)

/-- Modelled from the spec: reset-password consumption
(`consumeReset(token) -> user_id`, spec sections 4.4 and 6; the login
endpoint is not among the sources).  It validates with purpose
`PasswordReset` and performs no account-state transition: it only authorizes
an out-of-scope credential update. -/
def consume_reset (db : DB) (token : String) (now : Nat) :
    DB × Except ValidateError String :=
  match validate db.store token .PasswordReset now with
  | (st1, r) => ({ db with store := st1 }, r)

/-- `create_user` (users.py lines 169-194): the response (status 201 and the
inserted user) is computed by the request handler itself, while
`setup_email_verification` is only scheduled on `background_tasks` and runs
after the response is returned.  The deferred task is modelled by running it
here on the oracles; the response part never depends on them. -/
def create_user_flow (s : Settings) (env : Env) (users : List UserDoc)
    (newUser : UserDoc) (base_url : String) (tokenValue : String) (now : Nat)
    (insertOk : Bool) (smtpResult : Except String Unit) (st : Store) :
    (Nat × List UserDoc) × (Store × Except IssueError SendOutcome) :=
  ((201, users ++ [newUser]),
   setup_email_verification s env newUser.user_id newUser.email base_url
     tokenValue now insertOk smtpResult st)

/-- A scheduled sequence of validate attempts on one token value: the store's
atomic consume serializes concurrent calls, so any interleaving of N
concurrent attempts is some sequential order of the N calls.  Returns the
final store and the outcome each attempt observes. -/
def runValidates (db : Store) (v : String) :
    List (Purpose × Nat) → Store × List (Except ValidateError String)
  | [] => (db, [])
  | a :: rest =>
    let r := validate db v a.1 a.2
    let rs := runValidates r.1 v rest
    (rs.1, r.2 :: rs.2)

/-- Whether a validate attempt observed success. -/
def isSuccess : Except ValidateError String → Bool
  | .ok _ => true
  | .error _ => false

/-- The partitioning invariant (spec section 6): every record in the
verification-token collection carries purpose `EmailVerification` and every
record in the reset-token collection carries purpose `PasswordReset`. -/
def Partitioned (db : Store) : Prop :=
  (∀ t ∈ db.email_verification_tokens, t.purpose = Purpose.EmailVerification) ∧
  (∀ t ∈ db.reset_password_tokens, t.purpose = Purpose.PasswordReset)

/-- Sample configuration, used by the concrete witnesses below. -/
def sampleSettings : Settings :=
  { APP_NAME := "encyclo-flower", API_PREFIX := "/api",
    EMAIL_ADDRESS := "noreply@encyclo-flower.com" }

/-- SMTP credentials absent from the environment. -/
def envNoCreds : Env := { SMTP_USER := none, SMTP_PASS := none }

/-- SMTP credentials present in the environment. -/
def envCreds : Env := { SMTP_USER := some "user", SMTP_PASS := some "pass" }

/-- A sample email message. -/
def msgSample : EmailMessage :=
  { sender := "noreply@encyclo-flower.com", receipients := "u@example.org",
    subject := "Email verification", body := "b" }

/-- A sample user document: unverified, inactive. -/
def userSample : UserDoc :=
  { user_id := "u1", username := "alice", email := "u@example.org",
    phone := "000", password := "hash", is_superuser := false,
    email_verified := false, is_active := false }

/-- A second sample user document, with a different user id. -/
def userOther : UserDoc :=
  { user_id := "u2", username := "bob", email := "b@example.org",
    phone := "111", password := "hash2", is_superuser := false,
    email_verified := false, is_active := false }

/-- A store holding one freshly issued email-verification token. -/
def dbSample : Store :=
  { email_verification_tokens := [mkToken "tok" "u1" .EmailVerification 0],
    reset_password_tokens := [] }

/-- A full database: the sample store plus two user documents. -/
def dbFull : DB := { store := dbSample, users := [userSample, userOther] }

/-- Three simultaneous validate attempts on the sample token, all with the
correct purpose and before expiry. -/
def attemptsSample : List (Purpose × Nat) :=
  [(.EmailVerification, 5), (.EmailVerification, 5), (.EmailVerification, 5)]

lemma countP_eraseFirst (l : List Token) (v : String) :
    (eraseFirst l v).countP (fun t => decide (t.value = v)) =
      l.countP (fun t => decide (t.value = v)) - 1 := by
  induction l with
  | nil => simp [eraseFirst]
  | cons t ts ih =>
    by_cases h : t.value = v
    · simp [eraseFirst, h, List.countP_cons]
    · simp [eraseFirst, h, List.countP_cons, ih]

lemma mem_of_mem_eraseFirst (l : List Token) (v : String) :
    ∀ x ∈ eraseFirst l v, x ∈ l := by
  induction l with
  | nil => simp [eraseFirst]
  | cons t ts ih =>
    intro x hx
    by_cases h : t.value = v
    · simp only [eraseFirst, if_pos h] at hx
      exact List.mem_cons_of_mem t hx
    · simp only [eraseFirst, if_neg h, List.mem_cons] at hx
      rcases hx with hx | hx
      · exact hx ▸ List.mem_cons_self t ts
      · exact List.mem_cons_of_mem t (ih x hx)

lemma countValue_erase_eq_zero (db : Store) (v : String) (t : Token)
    (hu : UniqueValue db v)
    (hfind : ( Store.tokens db).find? (fun x => decide (x.value = v)) = some t) :
    countValue ( Store.erase db v) v = 0 := by
  have hmem : t ∈ Store.tokens db := List.mem_of_find?_eq_some hfind
  have hval := List.find?_some hfind
  have hpos : 0 < ( Store.tokens db).countP (fun x => decide (x.value = v)) :=
    List.countP_pos_iff.mpr ⟨t, hmem, hval⟩
  unfold UniqueValue at hu
  unfold countValue Store.tokens at hu hpos ⊢
  rw [List.countP_append] at hu hpos ⊢
  simp only [Store.erase]
  rw [countP_eraseFirst, countP_eraseFirst]
  omega

lemma validate_notFound (db : Store) (v : String) (p : Purpose) (now : Nat)
    (h : countValue db v = 0) :
    validate db v p now = (db, .error .NotFound) := by
  have hnone : ( Store.tokens db).find? (fun x => decide (x.value = v)) = none := by
    rw [List.find?_eq_none]
    intro x hx
    unfold countValue at h
    exact List.countP_eq_zero.mp h x hx
  unfold validate consumeIfValid
  rw [hnone]

lemma validate_ok (db : Store) (v : String) (p : Purpose) (now : Nat) (t : Token)
    (hfind : ( Store.tokens db).find? (fun x => decide (x.value = v)) = some t)
    (hp : t.purpose = p) (hnow : now ≤ t.expires_at) :
    validate db v p now = ( Store.erase db v, .ok t.user_id) := by
  simp [validate, consumeIfValid, hfind, hp, hnow]

lemma validate_ok_store (db : Store) (v : String) (p : Purpose) (now : Nat)
    (u : String) (hs : (validate db v p now).2 = .ok u) :
    ∃ t, ( Store.tokens db).find? (fun x => decide (x.value = v)) = some t ∧
      (validate db v p now).1 = Store.erase db v := by
  unfold validate consumeIfValid at hs ⊢
  cases hfind : ( Store.tokens db).find? (fun x => decide (x.value = v)) with
  | none => rw [hfind] at hs; simp at hs
  | some t =>
    rw [hfind] at hs
    by_cases hp : t.purpose = p
    · by_cases hn : now ≤ t.expires_at
      · exact ⟨t, rfl, by simp [hp, hn]⟩
      · simp [hp, hn] at hs
    · simp [hp] at hs

lemma runValidates_notFound (v : String) (l : List (Purpose × Nat)) :
    ∀ db : Store, countValue db v = 0 →
      runValidates db v l = (db, l.map fun _ => .error .NotFound) := by
  induction l with
  | nil => intro db _; simp [runValidates]
  | cons a rest ih =>
    intro db h
    have hv := validate_notFound db v a.1 a.2 h
    simp [runValidates, hv, ih db h]

/-- C4: at issuance the stored record is `mkToken`, whose `expires_at` is
`created_at + TTL(purpose)` with TTL exactly 48 hours for EmailVerification
and 24 hours for PasswordReset, hence `expires_at > created_at` always. -/
theorem token_ttl_at_issuance (s : Settings) (env : Env)
    (uid em b tv : String) (now : Nat) (r : Except String Unit) (db : Store) :
    ((setup_email_verification s env uid em b tv now true r db).1.email_verification_tokens
        = db.email_verification_tokens ++ [mkToken tv uid .EmailVerification now]) ∧
    ((setup_reset_password_email s env uid em b tv now true r db).1.reset_password_tokens
        = db.reset_password_tokens ++ [mkToken tv uid .PasswordReset now]) ∧
    (∀ value u c, (mkToken value u .EmailVerification c).expires_at
        = (mkToken value u .EmailVerification c).created_at + 48 * 3600) ∧
    (∀ value u c, (mkToken value u .PasswordReset c).expires_at
        = (mkToken value u .PasswordReset c).created_at + 24 * 3600) ∧
    (∀ value u p c, (mkToken value u p c).created_at < (mkToken value u p c).expires_at) := by
  refine ⟨?_, ?_, ?_, ?_, ?_⟩
  · simp [setup_email_verification, insert_one]
  · simp [setup_reset_password_email, insert_one]
  · intro value u c; simp [mkToken, TTL]
  · intro value u c; simp [mkToken, TTL]
  · intro value u p c
    cases p <;> simp only [mkToken, TTL] <;> omega

/-- C5 counterexample: the links the source embeds in the email bodies
(email.py lines 39 and 77) use `settings.API_PREFIX[1:]`, dropping the first
character of the prefix, so with prefix `/api` they differ from the spec's
`\x7bbase_url\x7d\x7bapi_prefix\x7d/...` formula. -/
theorem link_shape_counterexample :
    verificationLink "http://host/" "/api" "tok"
        ≠ specVerificationLink "http://host/" "/api" "tok" ∧
    resetPasswordLink "http://host/" "/api" "tok"
        ≠ specResetPasswordLink "http://host/" "/api" "tok" := by
  constructor <;> decide

/-- C5 amended: the link embedded in each notification body is exactly the
spec's formula applied to the API prefix with its first character dropped:
`\x7bbase_url\x7d\x7bapi_prefix[1:]\x7d/users/verify-email/\x7btoken\x7d` and
`\x7bbase_url\x7d\x7bapi_prefix[1:]\x7d/login/reset-password/\x7btoken\x7d`. -/
theorem link_shape_amended (s : Settings) (b tok : String) :
    (verificationBody s b tok =
      "\n    Hi,\n    Please click the link below to verify your email address:\n    "
        ++ specVerificationLink b (String.drop ( Settings.API_PREFIX s) 1) tok
        ++ "\n\n    The link will expire in 48 hours.\n\n    Thanks,\n    The "
        ++ s.APP_NAME ++ " Team\n    ") ∧
    (resetPasswordBody s b tok =
      "\n    Hi,\n    Please click the link below to reset your password:\n    "
        ++ specResetPasswordLink b (String.drop ( Settings.API_PREFIX s) 1) tok
        ++ "\n\n    The link will expire in 24 hours.\n\n    Thanks,\n    The "
        ++ s.APP_NAME ++ " Team\n    ") :=
  ⟨rfl, rfl⟩

/-- C6: when persisting the token record fails, both issuance operations fail
with `StorageUnavailable`, the store is returned unchanged (no token), and no
send outcome is produced (the insert precedes `send_email` in the source, so
the raised persistence error skips the send). -/
theorem storage_failure_no_issue (s : Settings) (env : Env)
    (uid em b tv : String) (now : Nat) (r : Except String Unit) (db : Store) :
    (setup_email_verification s env uid em b tv now false r db
        = (db, .error .StorageUnavailable)) ∧
    (setup_reset_password_email s env uid em b tv now false r db
        = (db, .error .StorageUnavailable)) := by
  constructor <;>
    simp [setup_email_verification, setup_reset_password_email, insert_one]

/-- C7 counterexample: a transport failure of `msg.smtp_send()` is not caught
anywhere in `send_email` (email.py wraps it in no try/except); with
credentials present a failing send propagates as an uncaught exception
(`SendOutcome.raised`) instead of being caught and logged. -/
theorem notification_failure_counterexample :
    send_email envCreds (.error "smtp connection refused") msgSample
      = .raised "smtp connection refused" := rfl

/-- C7 amended: the notification send is scheduled as a background task, so
the issuer's response (status 201 with the inserted user) is computed
independently of the send and of its outcome; a missing-credentials
condition is caught and logged as a warning, but an SMTP transport error
propagates uncaught inside the background task (without changing the
already-computed response). -/
theorem notification_decoupled (s : Settings) (env : Env) (users : List UserDoc)
    (newUser : UserDoc) (b tv : String) (now : Nat) (iok : Bool)
    (r : Except String Unit) (st : Store) :
    ((create_user_flow s env users newUser b tv now iok r st).1
        = (201, users ++ [newUser])) ∧
    (∀ msg r2, truthy env.SMTP_USER = false ∨ truthy env.SMTP_PASS = false →
        send_email env r2 msg = .warnedNotSent) ∧
    (∀ msg e, truthy env.SMTP_USER = true → truthy env.SMTP_PASS = true →
        send_email env (.error e) msg = .raised e) := by
  refine ⟨rfl, ?_, ?_⟩
  · intro msg r2 h
    rcases h with h | h <;> simp [send_email, h]
  · intro msg e h1 h2
    simp [send_email, h1, h2]

/-- Witness for C7 amended, at concrete inputs. -/
theorem notification_decoupled_witness :
    ((create_user_flow sampleSettings envNoCreds [] userSample "http://host/"
        "tok" 0 true (.ok ()) dbSample).1 = (201, [userSample])) ∧
    send_email envNoCreds (.ok ()) msgSample = .warnedNotSent ∧
    send_email envCreds (.error "boom") msgSample = .raised "boom" := by
  refine ⟨?_, ?_, ?_⟩
  · exact (notification_decoupled sampleSettings envNoCreds [] userSample
      "http://host/" "tok" 0 true (.ok ()) dbSample).1
  · exact (notification_decoupled sampleSettings envNoCreds [] userSample
      "http://host/" "tok" 0 true (.ok ()) dbSample).2.1 msgSample (.ok ())
      (Or.inl (by decide))
  · exact (notification_decoupled sampleSettings envCreds [] userSample
      "http://host/" "tok" 0 true (.ok ()) dbSample).2.2 msgSample "boom"
      (by decide) (by decide)

/-- C9: with `SMTP_USER` or `SMTP_PASS` unset (or empty), issuance still
inserts the token record and succeeds, while `send_email` only logs a
warning and sends nothing: a live token exists for which no notification was
delivered. -/
theorem missing_smtp_creds_issue_without_send (s : Settings) (env : Env)
    (uid em b tv : String) (now : Nat) (r : Except String Unit) (db : Store)
    (h : truthy env.SMTP_USER = false ∨ truthy env.SMTP_PASS = false) :
    (setup_email_verification s env uid em b tv now true r db
      = ({ db with email_verification_tokens :=
            db.email_verification_tokens ++ [mkToken tv uid .EmailVerification now] },
         .ok .warnedNotSent)) ∧
    (setup_reset_password_email s env uid em b tv now true r db
      = ({ db with reset_password_tokens :=
            db.reset_password_tokens ++ [mkToken tv uid .PasswordReset now] },
         .ok .warnedNotSent)) := by
  have hsend : ∀ msg r2, send_email env r2 msg = SendOutcome.warnedNotSent := by
    intro msg r2
    rcases h with h | h <;> simp [send_email, h]
  constructor <;>
    simp [setup_email_verification, setup_reset_password_email, insert_one, hsend]

/-- Witness for C9, at concrete inputs. -/
theorem missing_smtp_creds_witness :
    setup_email_verification sampleSettings envNoCreds "u1" "u@example.org"
      "http://host/" "tok" 0 true (.ok ())
      { email_verification_tokens := [], reset_password_tokens := [] }
    = (dbSample, .ok .warnedNotSent) :=
  (missing_smtp_creds_issue_without_send sampleSettings envNoCreds "u1"
    "u@example.org" "http://host/" "tok" 0 (.ok ())
    { email_verification_tokens := [], reset_password_tokens := [] }
    (Or.inl (by decide))).1

/-- C1: under the global value-uniqueness invariant, a successful `validate`
removes the record from the store as part of the consuming step (no record
with that value remains), and any second `validate` call with the same value
fails with `NotFound`, so a token is successfully validated at most once. -/
theorem validate_single_use (db : Store) (v : String) (p : Purpose) (now : Nat)
    (u : String) (hu : UniqueValue db v)
    (hs : (validate db v p now).2 = .ok u) :
    countValue ((validate db v p now).1) v = 0 ∧
    ∀ (q : Purpose) (now2 : Nat),
      validate ((validate db v p now).1) v q now2
        = ((validate db v p now).1, .error .NotFound) := by
  obtain ⟨t, hfind, hst⟩ := validate_ok_store db v p now u hs
  have h0 : countValue ( Store.erase db v) v = 0 :=
    countValue_erase_eq_zero db v t hu hfind
  rw [hst]
  exact ⟨h0, fun q now2 => validate_notFound _ v q now2 h0⟩

/-- Witness for C1, at concrete inputs. -/
theorem validate_single_use_witness :
    countValue ((validate dbSample "tok" .EmailVerification 0).1) "tok" = 0 ∧
    validate ((validate dbSample "tok" .EmailVerification 0).1) "tok"
        .EmailVerification 7
      = ((validate dbSample "tok" .EmailVerification 0).1, .error .NotFound) := by
  have h := validate_single_use dbSample "tok" .EmailVerification 0 "u1"
    (by unfold UniqueValue; decide) (by rfl)
  exact ⟨h.1, h.2 .EmailVerification 7⟩

lemma countP_isSuccess_all_notFound (l : List (Purpose × Nat)) :
    ((l.map fun _ => (Except.error ValidateError.NotFound : Except ValidateError String)).countP
        fun r => isSuccess r) = 0 := by
  induction l with
  | nil => rfl
  | cons a rest ih => simp [List.countP_cons, ih, isSuccess]

/-- C2: with a live token in the store for the value (unique, matching
purpose, before expiry at every attempt), any serialization of N concurrent
`validate` attempts on that value — the order the store's atomic consume
imposes — produces exactly one success, and every other attempt observes
`NotFound`. -/
theorem concurrent_validate_single_success (db : Store) (v : String) (t : Token)
    (attempts : List (Purpose × Nat)) (hu : UniqueValue db v)
    (hfind : ( Store.tokens db).find? (fun x => decide (x.value = v)) = some t)
    (hag : ∀ a ∈ attempts, a.1 = t.purpose ∧ a.2 ≤ t.expires_at)
    (hne : attempts ≠ []) :
    ((runValidates db v attempts).2.length = attempts.length) ∧
    ((runValidates db v attempts).2.countP (fun r => isSuccess r) = 1) ∧
    (∀ r ∈ (runValidates db v attempts).2,
        isSuccess r = true ∨ r = .error .NotFound) := by
  cases attempts with
  | nil => exact absurd rfl hne
  | cons a rest =>
    obtain ⟨ha1, ha2⟩ := hag a (List.mem_cons_self a rest)
    have hv : validate db v a.1 a.2 = ( Store.erase db v, .ok t.user_id) :=
      validate_ok db v a.1 a.2 t hfind ha1.symm ha2
    have h0 : countValue ( Store.erase db v) v = 0 :=
      countValue_erase_eq_zero db v t hu hfind
    have hrest := runValidates_notFound v rest ( Store.erase db v) h0
    refine ⟨?_, ?_, ?_⟩
    · simp [runValidates, hv, hrest]
    · simp [runValidates, hv, hrest, List.countP_cons, isSuccess,
        countP_isSuccess_all_notFound]
    · intro r hr
      simp only [runValidates, hv, hrest, List.mem_cons] at hr
      rcases hr with hr | hr
      · subst hr; left; rfl
      · right
        obtain ⟨a2, _, ha2⟩ := List.mem_map.mp hr
        exact ha2.symm

/-- Witness for C2, at concrete inputs: three simultaneous attempts. -/
theorem concurrent_validate_single_success_witness :
    ((runValidates dbSample "tok" attemptsSample).2.length
        = attemptsSample.length) ∧
    ((runValidates dbSample "tok" attemptsSample).2.countP
        (fun r => isSuccess r) = 1) := by
  have h := concurrent_validate_single_success dbSample "tok"
    (mkToken "tok" "u1" .EmailVerification 0) attemptsSample
    (by unfold UniqueValue; decide) (by rfl) (by decide) (by decide)
  exact ⟨h.1, h.2.1⟩

lemma find?_update_one_verify (us : List UserDoc) (uid : String) :
    (update_one_verify us uid).find? (fun u => decide (u.user_id = uid))
      = (us.find? (fun u => decide (u.user_id = uid))).map setVerifiedActive := by
  induction us with
  | nil => simp [update_one_verify]
  | cons u us ih =>
    by_cases h : u.user_id = uid
    · simp [update_one_verify, h, setVerifiedActive]
    · simp [update_one_verify, h, ih]

/-- C3: a successful `validate` of an EmailVerification token makes the
endpoint set `email_verified = true` and `is_active = true` on the account
referenced by the returned `user_id` (users.py lines 203-211), while
reset-password consumption never touches the users collection. -/
theorem verify_email_account_transition (db : DB) (v : String) (now : Nat)
    (t : Token) (doc : UserDoc)
    (hfind : ( Store.tokens db.store).find? (fun x => decide (x.value = v)) = some t)
    (hp : t.purpose = .EmailVerification)
    (hnow : now ≤ t.expires_at)
    (hdoc : db.users.find? (fun u => decide (u.user_id = t.user_id)) = some doc) :
    ((verify_email db v now).2 = .ok ()) ∧
    ((verify_email db v now).1.users.find? (fun u => decide (u.user_id = t.user_id))
        = some (setVerifiedActive doc)) ∧
    ((setVerifiedActive doc).email_verified = true) ∧
    ((setVerifiedActive doc).is_active = true) ∧
    (∀ (d : DB) (v2 : String) (n2 : Nat), (consume_reset d v2 n2).1.users = d.users) := by
  have hv := validate_ok db.store v .EmailVerification now t hfind hp hnow
  refine ⟨?_, ?_, rfl, rfl, ?_⟩
  · simp [verify_email, hv]
  · simp only [verify_email, hv]
    rw [find?_update_one_verify, hdoc]
    rfl
  · intro d v2 n2
    rfl

/-- Witness for C3, at concrete inputs. -/
theorem verify_email_account_transition_witness :
    ((verify_email dbFull "tok" 5).2 = .ok ()) ∧
    ((verify_email dbFull "tok" 5).1.users.find?
        (fun u => decide (u.user_id = "u1")) = some (setVerifiedActive userSample)) ∧
    ((setVerifiedActive userSample).email_verified = true) ∧
    ((setVerifiedActive userSample).is_active = true) := by
  have h := verify_email_account_transition dbFull "tok" 5
    (mkToken "tok" "u1" .EmailVerification 0) userSample
    (by rfl) (by rfl) (by decide) (by rfl)
  exact ⟨h.1, h.2.1, h.2.2.1, h.2.2.2.1⟩

lemma update_one_verify_frame (us : List UserDoc) (uid : String) :
    List.Forall₂ (fun old new =>
      new.user_id = old.user_id ∧ new.username = old.username ∧
      new.email = old.email ∧ new.phone = old.phone ∧
      new.password = old.password ∧ new.is_superuser = old.is_superuser ∧
      (old.user_id ≠ uid → new = old))
      us (update_one_verify us uid) := by
  induction us with
  | nil => simp [update_one_verify]
  | cons u us ih =>
    by_cases h : u.user_id = uid
    · simp only [update_one_verify, if_pos h]
      refine List.Forall₂.cons ⟨rfl, rfl, rfl, rfl, rfl, rfl,
        fun hne => absurd h hne⟩ ?_
      exact List.forall₂_same.mpr fun x _ => ⟨rfl, rfl, rfl, rfl, rfl, rfl, fun _ => rfl⟩
    · simp only [update_one_verify, if_neg h]
      exact List.Forall₂.cons ⟨rfl, rfl, rfl, rfl, rfl, rfl, fun _ => rfl⟩ ih

/-- C10: a successful email verification rewrites the users collection by
`update_one_verify` only: every document keeps its `user_id`, `username`,
`email`, `phone`, `password` and `is_superuser` fields, and every document
whose `user_id` differs from the consumed token's is left entirely
unchanged (only `email_verified` and `is_active` of the matched document can
change). -/
theorem verify_email_frame (db : DB) (v : String) (now : Nat) (t : Token)
    (hfind : ( Store.tokens db.store).find? (fun x => decide (x.value = v)) = some t)
    (hp : t.purpose = .EmailVerification)
    (hnow : now ≤ t.expires_at) :
    ((verify_email db v now).1.users = update_one_verify db.users t.user_id) ∧
    List.Forall₂ (fun old new =>
      new.user_id = old.user_id ∧ new.username = old.username ∧
      new.email = old.email ∧ new.phone = old.phone ∧
      new.password = old.password ∧ new.is_superuser = old.is_superuser ∧
      (old.user_id ≠ t.user_id → new = old))
      db.users ((verify_email db v now).1.users) := by
  have hv := validate_ok db.store v .EmailVerification now t hfind hp hnow
  have husers : (verify_email db v now).1.users
      = update_one_verify db.users t.user_id := by
    simp [verify_email, hv]
  refine ⟨husers, ?_⟩
  rw [husers]
  exact update_one_verify_frame db.users t.user_id

/-- Witness for C10, at concrete inputs. -/
theorem verify_email_frame_witness :
    ((verify_email dbFull "tok" 5).1.users = update_one_verify dbFull.users "u1") ∧
    List.Forall₂ (fun old new =>
      new.user_id = old.user_id ∧ new.username = old.username ∧
      new.email = old.email ∧ new.phone = old.phone ∧
      new.password = old.password ∧ new.is_superuser = old.is_superuser ∧
      (old.user_id ≠ "u1" → new = old))
      dbFull.users ((verify_email dbFull "tok" 5).1.users) :=
  verify_email_frame dbFull "tok" 5 (mkToken "tok" "u1" .EmailVerification 0)
    (by rfl) (by rfl) (by decide)

lemma partitioned_erase_store (db : Store) (v : String) (h : Partitioned db) :
    Partitioned ( Store.erase db v) := by
  unfold Partitioned at h ⊢
  refine ⟨?_, ?_⟩
  · intro t ht
    exact h.1 t (mem_of_mem_eraseFirst db.email_verification_tokens v t ht)
  · intro t ht
    exact h.2 t (mem_of_mem_eraseFirst db.reset_password_tokens v t ht)

lemma validate_fst (db : Store) (v : String) (p : Purpose) (n : Nat) :
    (validate db v p n).1 = db ∨ (validate db v p n).1 = Store.erase db v := by
  unfold validate consumeIfValid
  cases hf : ( Store.tokens db).find? (fun x => decide (x.value = v)) with
  | none => left; rfl
  | some t =>
    by_cases hp : t.purpose = p
    · by_cases hn : n ≤ t.expires_at
      · right; simp [hp, hn]
      · left; simp [hp, hn]
    · left; simp [hp]

/-- C8: every operation preserves the partitioning: issuance writes the
EmailVerification record only into `email_verification_tokens` (leaving the
reset collection untouched) and the PasswordReset record only into
`reset_password_tokens` (leaving the verification collection untouched), and
validation only deletes, so each collection keeps holding records of its own
purpose exclusively. -/
theorem purpose_partitioning (s : Settings) (env : Env)
    (uid em b tv : String) (now : Nat) (iok : Bool) (r : Except String Unit)
    (db : Store) (v : String) (p : Purpose) (n2 : Nat)
    (h : Partitioned db) :
    Partitioned ((setup_email_verification s env uid em b tv now iok r db).1) ∧
    Partitioned ((setup_reset_password_email s env uid em b tv now iok r db).1) ∧
    Partitioned ((validate db v p n2).1) ∧
    ((setup_email_verification s env uid em b tv now iok r db).1.reset_password_tokens
        = db.reset_password_tokens) ∧
    ((setup_reset_password_email s env uid em b tv now iok r db).1.email_verification_tokens
        = db.email_verification_tokens) := by
  refine ⟨?_, ?_, ?_, ?_, ?_⟩
  · cases iok with
    | false => simpa [setup_email_verification, insert_one] using h
    | true =>
      simp only [setup_email_verification, insert_one, if_true]
      unfold Partitioned at h ⊢
      refine ⟨?_, h.2⟩
      intro t ht
      rcases List.mem_append.mp ht with ht | ht
      · exact h.1 t ht
      · simp only [List.mem_singleton] at ht
        subst ht
        rfl
  · cases iok with
    | false => simpa [setup_reset_password_email, insert_one] using h
    | true =>
      simp only [setup_reset_password_email, insert_one, if_true]
      unfold Partitioned at h ⊢
      refine ⟨h.1, ?_⟩
      intro t ht
      rcases List.mem_append.mp ht with ht | ht
      · exact h.2 t ht
      · simp only [List.mem_singleton] at ht
        subst ht
        rfl
  · rcases validate_fst db v p n2 with hf | hf
    · rw [hf]; exact h
    · rw [hf]; exact partitioned_erase_store db v h
  · cases iok with
    | false => simp [setup_email_verification, insert_one]
    | true => simp [setup_email_verification, insert_one]
  · cases iok with
    | false => simp [setup_reset_password_email, insert_one]
    | true => simp [setup_reset_password_email, insert_one]

/-- Witness for C8, at concrete inputs. -/
theorem purpose_partitioning_witness :
    Partitioned ((setup_email_verification sampleSettings envNoCreds "u1"
        "u@example.org" "http://host/" "tok2" 0 true (.ok ()) dbSample).1) ∧
    Partitioned ((setup_reset_password_email sampleSettings envNoCreds "u1"
        "u@example.org" "http://host/" "tok2" 0 true (.ok ()) dbSample).1) ∧
    Partitioned ((validate dbSample "tok" .EmailVerification 5).1) ∧
    ((setup_email_verification sampleSettings envNoCreds "u1" "u@example.org"
        "http://host/" "tok2" 0 true (.ok ()) dbSample).1.reset_password_tokens
      = dbSample.reset_password_tokens) ∧
    ((setup_reset_password_email sampleSettings envNoCreds "u1" "u@example.org"
        "http://host/" "tok2" 0 true (.ok ()) dbSample).1.email_verification_tokens
      = dbSample.email_verification_tokens) :=
  purpose_partitioning sampleSettings envNoCreds "u1" "u@example.org"
    "http://host/" "tok2" 0 true (.ok ()) dbSample "tok" .EmailVerification 5
    (by unfold Partitioned; decide)

end EncycloFlower
